import Mathlib

/-!
Shallow embedding of the akarin expr2 filter (src/expr2/exprfilter.cpp):
the IR (ExprOp), the token decoder, the scalar interpreter, a per-lane
scalar model of the JIT code generator buildOneIter, the sorting-network
generator buildSortNet, and the frame-property access paths of the three
filters Expr, Select, PropExpr.

Modelling conventions, used throughout and noted again at the definitions:
* 32-bit floats are modelled as exact rationals.  Every concrete program a
  theorem below evaluates stays inside values on which float arithmetic is
  exact, so no rounding model is needed; the explicit float-to-integer
  rounding functions of the code (rint / roundss, std::round, truncation)
  are modelled exactly.
* 32-bit SIMD integer lanes are modelled as integers wrapped into
  two's-complement range where the hardware wraps (add, sub, mul, abs).
* The JIT emits code for LANES independent identical lanes; the model is
  one lane, with pixel and constant loads abstracted into oracles.
* Fallible code becomes Except; a thrown std::runtime_error is a
  JitErr.rte, the std::bad_variant_access a Value::Min/Max can raise on a
  mixed int/float pair (it is not caught anywhere) is JitErr.badVariant.
-/

namespace Akarin

/-! Op kinds, enum ExprOpType of the source, lines 54-88. -/

inductive ExprOpType where
  | MEM_LOAD | MEM_LOAD_VAR
  | CONSTANTI | CONSTANTF | CONST_LOAD
  | VAR_LOAD | VAR_STORE
  | ADD | SUB | MUL | DIV | MOD | SQRT | ABS | MAX | MIN | CLAMP | CMP
  | TRUNC | ROUND | FLOOR
  | AND | OR | XOR | NOT
  | BITAND | BITOR | BITXOR | BITNOT
  | EXP | LOG | POW | SIN | COS
  | TERNARY
  | SORT
  | DUP | SWAP | DROP
  | ARGMIN | ARGMAX | ARGSORT
  deriving DecidableEq, Repr

/-! Boundary conditions, lines 149-153. -/

inductive BoundaryCondition where
  | Unspecified | Clamped | Mirrored
  deriving DecidableEq, Repr

/-!
The IR instruction, struct ExprOp of the source, lines 167-176.  The
source stores the immediate in a union of int32_t i, uint32_t u, float f.
The model splits the union into an integer member imm (int and unsigned
views share it; immU below gives the unsigned two's-complement view) and
a float member immF.  Every reachable op writes and reads one member
only, so the split is faithful for them; the raw-bits equality of
operator== is modelled separately by ExprOpRaw further down.
-/

structure ExprOp where
  type : ExprOpType
  imm : Int := 0
  immF : Rat := 0
  name : String := ""
  x : Int := 0
  y : Int := 0
  bc : BoundaryCondition := .Unspecified
  deriving DecidableEq, Repr

/-- ExprUnion member u read from an op whose integer member was stored:
the unsigned 32-bit two's-complement view of imm. -/
def ExprOp.immU (op : ExprOp) : Nat := (op.imm % (2 ^ 32 : Int)).toNat

/-! ComparisonType codes, lines 126-133, as the imm values the decoder
stores and the evaluators switch on. -/

def cmpEQ : Int := 0
def cmpLT : Int := 1
def cmpLE : Int := 2
def cmpNEQ : Int := 4
def cmpNLT : Int := 5
def cmpNLE : Int := 6

/-! LoadConstType codes, lines 135-142. -/

def lcN : Int := 0
def lcX : Int := 1
def lcY : Int := 2
def lcWidth : Int := 3
def lcHeight : Int := 4
def lcLAST : Int := 5

/-! Rounding and 32-bit helpers. -/

/-- Truncation toward zero, the C float-to-integer conversion for values
in range. -/
def qtrunc (q : Rat) : Int := if q < 0 then -(Int.floor (-q)) else Int.floor q

/-- Round to nearest, ties away from zero: std::round, used by the
interpreter in its bitwise cases and its ROUND case. -/
def rhaz (q : Rat) : Int := if q < 0 then -(Int.floor (-q + 1/2)) else Int.floor (q + 1/2)

/-- Round to nearest, ties to even: the x86 default rounding used by the
code the JIT emits for RoundInt and Round. -/
def rne (q : Rat) : Int :=
  let f := Int.floor q
  let r := q - (f : Rat)
  if r < 1/2 then f
  else if 1/2 < r then f + 1
  else if f % 2 = 0 then f else f + 1

/-- The low 32 bits of an integer, as a natural number. -/
def toBits32 (z : Int) : Nat := (z % (2 ^ 32 : Int)).toNat

/-- A 32-bit pattern read back as a signed integer. -/
def ofBits32 (n : Nat) : Int := if n < 2 ^ 31 then (n : Int) else (n : Int) - 2 ^ 32

/-- Wrap into signed 32-bit range, the behaviour of SIMD i32 lanes. -/
def wrap32 (z : Int) : Int := ofBits32 (toBits32 z)

def band32 (a b : Int) : Int := ofBits32 (toBits32 a &&& toBits32 b)

def bor32 (a b : Int) : Int := ofBits32 (toBits32 a ||| toBits32 b)

def bxor32 (a b : Int) : Int := ofBits32 (toBits32 a ^^^ toBits32 b)

def bnot32 (a : Int) : Int := ofBits32 (toBits32 a ^^^ (2 ^ 32 - 1))

/-- fmod of the C library on exactly-representable values:
l - trunc(l / r) * r.  fmod with r = 0 is a NaN the rational model
cannot hold; the model returns 0 there and no theorem below divides
by zero. -/
def qfmod (l r : Rat) : Rat := if r = 0 then 0 else l - (qtrunc (l / r) : Rat) * r

/-!
The sorting-network generator, buildSortNet of the source, lines
788-813.  The source computes in C int; iteration counts and shift
amounts are non-negative throughout, so the model uses Nat, with C
subtraction that can go negative (n - d as a loop bound, q - p as the
next d) appearing as truncated Nat subtraction, which ends the loop at
the same point.  For n of a sort the filters accept (n at least 2) the
shift 1 << (t-1) has t at least 1; for n = 0, 1 the source shifts by -1
(undefined in C); the Nat model reads t - 1 = 0 there and still produces
the empty network the source produces in practice.
-/

/-- The loop int t = 0; while (n > (1 << t)) t++; of line 797-798,
started at t. -/
def ctLoop (n t : Nat) : Nat :=
  if n ≤ 1 <<< t then t else ctLoop n (t + 1)
termination_by n - (1 <<< t)
decreasing_by
  simp only [Nat.shiftLeft_eq, Nat.one_mul] at *
  have h2 : 2 ^ t < 2 ^ (t + 1) := Nat.pow_lt_pow_right (by omega) (by omega)
  omega

/-- One pass of the emit loop of lines 803-805: pairs (i, i + d) for
i in [0, n - d) with (i AND p) == r, in order of increasing i. -/
def sortNetRow (n d r p : Nat) : List (Nat × Nat) :=
  (List.range (n - d)).filterMap (fun i => if i &&& p = r then some (i, i + d) else none)

/-- The inner while (d > 0) loop of lines 802-809: after a pass the
updates are d = q - p, q >>= 1, r = p. -/
def sortNetInner (n p q r d : Nat) : List (Nat × Nat) :=
  if d = 0 then []
  else sortNetRow n d r p ++ sortNetInner n p (q / 2) p (q - p)
termination_by (q, d)
decreasing_by
  rcases Nat.eq_zero_or_pos q with h | h
  · subst h
    exact Prod.Lex.right 0 (by omega)
  · exact Prod.Lex.left _ _ (Nat.div_lt_self h (by omega))

/-- The outer while (p > 0) loop of lines 800-811; q restarts at
1 << (t - 1) each phase and p halves. -/
def sortNetOuter (n t p : Nat) : List (Nat × Nat) :=
  if p = 0 then []
  else sortNetInner n p (1 <<< (t - 1)) 0 p ++ sortNetOuter n t (p / 2)
termination_by p
decreasing_by exact Nat.div_lt_self (by omega) (by omega)

/-- buildSortNet of the source, lines 789-813 (the memoising cache of the
source returns the same list it first built, so the model is the builder
itself). -/
def buildSortNet (n : Nat) : List (Nat × Nat) :=
  sortNetOuter n (ctLoop n 0) (1 <<< (ctLoop n 0 - 1))

/-!
The same schedule written from the words of the spec, section 4.4:
  t = ceil(log2(n));  p = 2^(t-1)
  while p > 0:
      q = 2^(t-1); r = 0; d = p
      while d > 0:
          for i in 0..n-d: if (i AND p) == r: emit (i, i+d)
          d = q - p;  q >>= 1;  r = p
      p >>= 1
with 0..n-d read as the half-open range [0, n-d) (the spec says the
procedure produces the same sequence as the reference).  The ceiling
log is taken as Nat.clog 2. -/

def specNetRow (n d r p : Nat) : List (Nat × Nat) :=
  (List.range (n - d)).filterMap (fun i => if i &&& p = r then some (i, i + d) else none)

def specNetInner (n p q r d : Nat) : List (Nat × Nat) :=
  if d = 0 then []
  else specNetRow n d r p ++ specNetInner n p (q / 2) p (q - p)
termination_by (q, d)
decreasing_by
  rcases Nat.eq_zero_or_pos q with h | h
  · subst h
    exact Prod.Lex.right 0 (by omega)
  · exact Prod.Lex.left _ _ (Nat.div_lt_self h (by omega))

def specNetOuter (n t p : Nat) : List (Nat × Nat) :=
  if p = 0 then []
  else specNetInner n p (2 ^ (t - 1)) 0 p ++ specNetOuter n t (p / 2)
termination_by p
decreasing_by exact Nat.div_lt_self (by omega) (by omega)

/-- The deterministic schedule of spec section 4.4, as a whole. -/
def sortNetSpec (n : Nat) : List (Nat × Nat) :=
  specNetOuter n (Nat.clog 2 n) (2 ^ (Nat.clog 2 n - 1))

/-!
The scalar interpreter, function interpret of the source, lines
1596-1847.  The value stack is a list of rationals with the head as the
top of stack (stack.back() of the source).  The libm calls the
interpreter makes (std::exp and friends) are external to the repository
and enter as oracle fields of the environment; std::sqrt is applied to
the already-clamped argument, as in the source.  pixelGet and propGet
are the host-supplied closures and may throw (the Select and PropExpr
constructors bind pixelGet to a throw).  The debug rstk out-parameter of
the source is not modelled; the claims concern the normal path.
-/

structure InterpEnv where
  frameN : Int
  width : Int
  height : Int
  coordY : Int
  coordX : Int
  pixelGet : ExprOp → Int → Int → Except String Rat
  propGet : Int → String → Except String Rat
  libmSqrt : Rat → Rat
  libmExp : Rat → Rat
  libmLog : Rat → Rat
  libmSin : Rat → Rat
  libmCos : Rat → Rat
  libmPow : Rat → Rat → Rat

structure InterpState where
  stack : List Rat
  vars : List (String × Rat)

/-- check_stack of line 1599: the stack size and the argument are
compared as C ints, so an unsigned immediate passed there arrives
wrapped. -/
def checkStack (stk : List Rat) (nargs : Int) : Except String Unit :=
  if (stk.length : Int) < nargs then
    .error "stack underflow"
  else
    .ok ()

/-- Pop the top of stack; the source reads stack.back() unchecked where
no check_stack precedes (VAR_STORE), which is undefined on an empty
stack, and the model raises instead.  No claim reaches that state. -/
def popTop (stk : List Rat) : Except String (Rat × List Rat) :=
  match stk with
  | [] => .error "stack underflow"
  | x :: rest => .ok (x, rest)

/-- Ascending insertion into an ascending list. -/
def insAsc (x : Rat) : List Rat → List Rat
  | [] => [x]
  | y :: ys => if x ≤ y then x :: y :: ys else y :: insAsc x ys

/-- Insertion sort, ascending.  In a head-as-top list an ascending order
is exactly what std::sort with the comparator l > r of line 1799 leaves
in memory: the deepest of the sorted range largest, the top smallest. -/
def sortAsc : List Rat → List Rat
  | [] => []
  | x :: xs => insAsc x (sortAsc xs)

/-- The ARGMIN and ARGMAX scan of lines 1804-1815: seg is the sorted
range in memory order (deepest first), the extremum index with ties to
the smallest index. -/
def argExtIdx (isMin : Bool) (seg : List Rat) (count : Nat) : Nat :=
  (List.range count).foldl
    (fun best i =>
      if i = 0 then best
      else
        let x := seg.getD i 0
        let cur := seg.getD best 0
        if (isMin && decide (x < cur)) || (!isMin && decide (cur < x)) then i else best)
    0

/-- Stable descending insertion of index i into an index list already
sorted descending by segment value; an index inserted later goes after
equal-valued earlier ones, which is the stability of std::stable_sort
with the comparator of line 1825. -/
def insArgDesc (seg : List Rat) (i : Nat) : List Nat → List Nat
  | [] => [i]
  | j :: js => if seg.getD j 0 < seg.getD i 0 then i :: j :: js else j :: insArgDesc seg i js

/-- The index permutation ARGSORT computes, in memory order. -/
def stableArgsortDesc (seg : List Rat) : List Nat :=
  (List.range seg.length).foldl (fun acc i => insArgDesc seg i acc) []

/-- One op of the interpreter loop, lines 1605-1829. -/
def interpStep (env : InterpEnv) (st : InterpState) (op : ExprOp) :
    Except String InterpState := do
  let stk := st.stack
  match op.type with
  | .DUP => do
    let _ ← checkStack stk (wrap32 op.imm)
    .ok { st with stack := stk.getD op.immU 0 :: stk }
  | .SWAP => do
    let _ ← checkStack stk (wrap32 op.imm)
    let u := op.immU
    .ok { st with stack := (stk.set 0 (stk.getD u 0)).set u (stk.getD 0 0) }
  | .DROP => do
    let _ ← checkStack stk (wrap32 op.imm)
    .ok { st with stack := stk.drop op.immU }
  | .MEM_LOAD => do
    let v ← env.pixelGet op env.coordY env.coordX
    .ok { st with stack := v :: stk }
  | .MEM_LOAD_VAR => do
    let v ← env.pixelGet op env.coordY env.coordX
    .ok { st with stack := v :: stk }
  | .CONSTANTI => .ok { st with stack := (wrap32 op.imm : Rat) :: stk }
  | .CONSTANTF => .ok { st with stack := op.immF :: stk }
  | .CONST_LOAD =>
    if op.imm = lcN then .ok { st with stack := (env.frameN : Rat) :: stk }
    else if op.imm = lcY then .ok { st with stack := (env.coordY : Rat) :: stk }
    else if op.imm = lcX then .ok { st with stack := (env.coordX : Rat) :: stk }
    else if op.imm = lcWidth then .ok { st with stack := (env.width : Rat) :: stk }
    else if op.imm = lcHeight then .ok { st with stack := (env.height : Rat) :: stk }
    else do
      let v ← env.propGet (op.imm - lcLAST) op.name
      .ok { st with stack := v :: stk }
  | .VAR_LOAD =>
    match st.vars.lookup op.name with
    | none => .error ("variable " ++ op.name ++ " used before assignment")
    | some v => .ok { st with stack := v :: stk }
  | .VAR_STORE => do
    let (v, rest) ← popTop stk
    .ok { stack := rest, vars := (op.name, v) :: st.vars }
  | .ADD => do
    let _ ← checkStack stk 2
    let (r, s1) ← popTop stk
    let (l, s2) ← popTop s1
    .ok { st with stack := (l + r) :: s2 }
  | .SUB => do
    let _ ← checkStack stk 2
    let (r, s1) ← popTop stk
    let (l, s2) ← popTop s1
    .ok { st with stack := (l - r) :: s2 }
  | .MUL => do
    let _ ← checkStack stk 2
    let (r, s1) ← popTop stk
    let (l, s2) ← popTop s1
    .ok { st with stack := (l * r) :: s2 }
  | .DIV => do
    let _ ← checkStack stk 2
    let (r, s1) ← popTop stk
    let (l, s2) ← popTop s1
    .ok { st with stack := (l / r) :: s2 }
  | .MOD => do
    let _ ← checkStack stk 2
    let (r, s1) ← popTop stk
    let (l, s2) ← popTop s1
    .ok { st with stack := qfmod l r :: s2 }
  | .SQRT => do
    let _ ← checkStack stk 1
    let (x, s1) ← popTop stk
    .ok { st with stack := env.libmSqrt (max x 0) :: s1 }
  | .ABS => do
    let _ ← checkStack stk 1
    let (x, s1) ← popTop stk
    .ok { st with stack := |x| :: s1 }
  | .MAX => do
    let _ ← checkStack stk 2
    let (r, s1) ← popTop stk
    let (l, s2) ← popTop s1
    .ok { st with stack := max l r :: s2 }
  | .MIN => do
    let _ ← checkStack stk 2
    let (r, s1) ← popTop stk
    let (l, s2) ← popTop s1
    .ok { st with stack := min l r :: s2 }
  | .CLAMP => do
    let _ ← checkStack stk 3
    let (maxv, s1) ← popTop stk
    let (minv, s2) ← popTop s1
    let (x, s3) ← popTop s2
    .ok { st with stack := max (min x maxv) minv :: s3 }
  | .CMP => do
    let _ ← checkStack stk 2
    let (r, s1) ← popTop stk
    let (l, s2) ← popTop s1
    let b : Bool :=
      if op.imm = cmpEQ then decide (l = r)
      else if op.imm = cmpLT then decide (l < r)
      else if op.imm = cmpLE then decide (l ≤ r)
      else if op.imm = cmpNEQ then decide (l ≠ r)
      else if op.imm = cmpNLT then decide (r ≤ l)
      else if op.imm = cmpNLE then decide (r < l)
      else false
    .ok { st with stack := (if b then (1 : Rat) else 0) :: s2 }
  | .TRUNC => do
    let _ ← checkStack stk 1
    let (x, s1) ← popTop stk
    .ok { st with stack := (qtrunc x : Rat) :: s1 }
  | .ROUND => do
    let _ ← checkStack stk 1
    let (x, s1) ← popTop stk
    .ok { st with stack := (rhaz x : Rat) :: s1 }
  | .FLOOR => do
    let _ ← checkStack stk 1
    let (x, s1) ← popTop stk
    .ok { st with stack := (Int.floor x : Rat) :: s1 }
  | .AND => do
    let _ ← checkStack stk 2
    let (r, s1) ← popTop stk
    let (l, s2) ← popTop s1
    let b := decide (0 < l) && decide (0 < r)
    .ok { st with stack := (if b then (1 : Rat) else 0) :: s2 }
  | .OR => do
    let _ ← checkStack stk 2
    let (r, s1) ← popTop stk
    let (l, s2) ← popTop s1
    let b := decide (0 < l) || decide (0 < r)
    .ok { st with stack := (if b then (1 : Rat) else 0) :: s2 }
  | .XOR => do
    let _ ← checkStack stk 2
    let (r, s1) ← popTop stk
    let (l, s2) ← popTop s1
    let b := xor (decide (0 < l)) (decide (0 < r))
    .ok { st with stack := (if b then (1 : Rat) else 0) :: s2 }
  | .NOT => do
    let _ ← checkStack stk 1
    let (x, s1) ← popTop stk
    .ok { st with stack := (if x ≤ 0 then (1 : Rat) else 0) :: s1 }
  | .BITAND => do
    let _ ← checkStack stk 2
    let (r, s1) ← popTop stk
    let (l, s2) ← popTop s1
    .ok { st with stack := (band32 (rhaz l) (rhaz r) : Rat) :: s2 }
  | .BITOR => do
    let _ ← checkStack stk 2
    let (r, s1) ← popTop stk
    let (l, s2) ← popTop s1
    .ok { st with stack := (bor32 (rhaz l) (rhaz r) : Rat) :: s2 }
  | .BITXOR => do
    let _ ← checkStack stk 2
    let (r, s1) ← popTop stk
    let (l, s2) ← popTop s1
    .ok { st with stack := (bxor32 (rhaz l) (rhaz r) : Rat) :: s2 }
  | .BITNOT => do
    let _ ← checkStack stk 1
    let (x, s1) ← popTop stk
    .ok { st with stack := (bnot32 (rhaz x) : Rat) :: s1 }
  | .EXP => do
    let _ ← checkStack stk 1
    let (x, s1) ← popTop stk
    .ok { st with stack := env.libmExp x :: s1 }
  | .LOG => do
    let _ ← checkStack stk 1
    let (x, s1) ← popTop stk
    .ok { st with stack := env.libmLog x :: s1 }
  | .POW => do
    let _ ← checkStack stk 2
    let (r, s1) ← popTop stk
    let (l, s2) ← popTop s1
    .ok { st with stack := env.libmPow l r :: s2 }
  | .SIN => do
    let _ ← checkStack stk 1
    let (x, s1) ← popTop stk
    .ok { st with stack := env.libmSin x :: s1 }
  | .COS => do
    let _ ← checkStack stk 1
    let (x, s1) ← popTop stk
    .ok { st with stack := env.libmCos x :: s1 }
  | .TERNARY => do
    let _ ← checkStack stk 3
    let (f, s1) ← popTop stk
    let (t, s2) ← popTop s1
    let (c, s3) ← popTop s2
    .ok { st with stack := (if 0 < c then t else f) :: s3 }
  | .SORT => do
    let _ ← checkStack stk (wrap32 op.imm)
    let u := op.immU
    .ok { st with stack := sortAsc (stk.take u) ++ stk.drop u }
  | .ARGMIN => do
    let _ ← checkStack stk (wrap32 op.imm)
    let u := op.immU
    let seg := (stk.take u).reverse
    let idx := argExtIdx true seg (wrap32 op.imm).toNat
    .ok { st with stack := (idx : Rat) :: stk.drop u }
  | .ARGMAX => do
    let _ ← checkStack stk (wrap32 op.imm)
    let u := op.immU
    let seg := (stk.take u).reverse
    let idx := argExtIdx false seg (wrap32 op.imm).toNat
    .ok { st with stack := (idx : Rat) :: stk.drop u }
  | .ARGSORT => do
    let _ ← checkStack stk (wrap32 op.imm)
    let u := op.immU
    let seg := (stk.take u).reverse
    let idxs := stableArgsortDesc seg
    .ok { st with stack := (idxs.map (fun i => (i : Rat))).reverse ++ stk.drop u }

/-- The op loop of interpret. -/
def interpGo (env : InterpEnv) : List ExprOp → InterpState → Except String InterpState
  | [], st => .ok st
  | op :: rest, st => do
    let st1 ← interpStep env st op
    interpGo env rest st1

/-- interpret, whole: run the ops from an empty stack and no variables,
then the end conditions of lines 1841-1846. -/
def interpRun (env : InterpEnv) (ops : List ExprOp) : Except String Rat := do
  let st ← interpGo env ops { stack := [], vars := [] }
  match st.stack with
  | [] => .error "empty expression"
  | [x] => .ok x
  | _ => .error "unconsumed values on stack"

/-!
A per-lane scalar model of the JIT code generator, Compiler::buildOneIter
of the source, lines 816-1261, together with class Value, lines 492-518.
The compile-time stack holds typed SSA lane vectors; all LANES lanes are
independent and identical up to the lane index folded into the X
constant and the pixel addresses, so the model follows one lane.  A
Value is an integer lane (i32, wrapping) or a float lane.

Pixel loads: the address computation, boundary clamping or mirroring,
the gather paths and relativeAccessAdjust of lines 730-786 and 905-978
produce a lane value that depends only on the op and the position; the
model folds all of that into the pixel oracles of the environment and
keeps what the claims are about: the sample-format dispatch and the
force_float promotion of integer loads (lines 937-959, 1072-1092).

Transcendentals: the polynomial helpers of lines 544-683 enter as
oracles; the Pow helper is exp(log x * y) through those oracles, as
built in lines 1293-1299.  The POW case with an integer-typed exponent
dispatches at generated-code level on constancy of the exponent (line
1187); both sides of that dispatch enter as one oracle powIntExp.
-/

inductive JValue where
  | iv (z : Int)
  | fv (q : Rat)
  deriving DecidableEq, Repr

/-- What the code generator can raise.  rte is a std::runtime_error the
constructor catches and turns into a user error; badVariant is the
std::bad_variant_access of std::get inside Value::Min and Value::Max,
lines 516-517, when exactly one operand is a float (they read f() of
both operands in the float branch), which no handler in the source
catches. -/
inductive JitErr where
  | rte (msg : String)
  | badVariant
  deriving DecidableEq, Repr

/-- Value::ensureFloat, line 513: an integer lane widened to float
(exact in the rational model; the hardware conversion rounds above
2 to the 24th, which no theorem below crosses). -/
def JValue.ensureFloat : JValue → Rat
  | .iv z => (z : Rat)
  | .fv q => q

/-- Value::ensureInt, line 514: RoundInt is the x86 round to nearest
even. -/
def JValue.ensureInt : JValue → Int
  | .iv z => z
  | .fv q => rne q

def JValue.isFloat : JValue → Bool
  | .iv _ => false
  | .fv _ => true

/-- Value::Min, line 517: the float branch reads the float alternative
of both operands, so a mixed pair raises bad_variant_access. -/
def valueMin (l r : JValue) : Except JitErr JValue :=
  match l, r with
  | .fv a, .fv b => .ok (.fv (min a b))
  | .iv a, .iv b => .ok (.iv (min a b))
  | _, _ => .error .badVariant

/-- Value::Max, line 516, same shape as valueMin. -/
def valueMax (l r : JValue) : Except JitErr JValue :=
  match l, r with
  | .fv a, .fv b => .ok (.fv (max a b))
  | .iv a, .iv b => .ok (.iv (max a b))
  | _, _ => .error .badVariant

/-- A sample format: integer or float samples and the bit depth. -/
structure VFormat where
  isIntFmt : Bool
  bits : Nat
  deriving DecidableEq, Repr

structure JitEnv where
  numInputs : Int
  optMask : Nat
  /-- Input clip formats, ctx.vi of the source.  A total function: the
  MEM_LOAD_VAR case of line 1065 indexes ctx.vi with the raw clip
  immediate without any bounds check, an out-of-bounds read when the
  immediate is not below numInputs. -/
  viFmt : Int → VFormat
  /-- Lane value of a MEM_LOAD from an integer-format clip, boundary
  handling folded in. -/
  pixelI : ExprOp → Int
  /-- Lane value of a MEM_LOAD from a float-format clip. -/
  pixelF : ExprOp → Rat
  /-- Lane value of a MEM_LOAD_VAR gather from an integer-format clip at
  the clamped absolute coordinates. -/
  gatherI : ExprOp → Int → Int → Int
  /-- Lane value of a MEM_LOAD_VAR gather from a float-format clip. -/
  gatherF : ExprOp → Int → Int → Rat
  /-- consts[0] read as an int: the frame number. -/
  consts0N : Int
  /-- The lane's x coordinate (base x plus lane index). -/
  coordX : Int
  coordY : Int
  width : Int
  height : Int
  /-- consts[i] read as float: the packed frame-property values. -/
  constsF : Int → Rat
  polyExp : Rat → Rat
  polyLog : Rat → Rat
  polySin : Rat → Rat
  polyCos : Rat → Rat
  /-- Hardware square root of the clamped argument. -/
  sqrtHW : Rat → Rat
  /-- The POW case with an integer-typed exponent, line 1186-1189:
  BuiltinPow when the exponent is a generated-code constant, else the
  Pow helper; one oracle for both sides of that dispatch. -/
  powIntExp : Rat → Int → Rat

/-- Context::forceFloat, line 467: bit 0 of the option mask (the
flagUseInteger flag of line 450) clear. -/
def JitEnv.forceFloat (env : JitEnv) : Bool := env.optMask &&& 1 = 0

structure JitState where
  stack : List JValue
  vars : List JValue

/-- The operand-count table of lines 818-858. -/
def numOperandsJit : ExprOpType → Nat
  | .MEM_LOAD => 0
  | .MEM_LOAD_VAR => 2
  | .CONSTANTI => 0
  | .CONSTANTF => 0
  | .CONST_LOAD => 0
  | .VAR_LOAD => 0
  | .VAR_STORE => 1
  | .ADD => 2
  | .SUB => 2
  | .MUL => 2
  | .DIV => 2
  | .MOD => 2
  | .SQRT => 1
  | .ABS => 1
  | .MAX => 2
  | .MIN => 2
  | .CLAMP => 3
  | .CMP => 2
  | .TRUNC => 1
  | .ROUND => 1
  | .FLOOR => 1
  | .AND => 2
  | .OR => 2
  | .XOR => 2
  | .NOT => 1
  | .BITAND => 2
  | .BITOR => 2
  | .BITXOR => 2
  | .BITNOT => 1
  | .EXP => 1
  | .LOG => 1
  | .POW => 2
  | .SIN => 1
  | .COS => 1
  | .TERNARY => 3
  | .SORT => 0
  | .DUP => 0
  | .SWAP => 0
  | .DROP => 0
  | .ARGMIN => 0
  | .ARGMAX => 0
  | .ARGSORT => 0

/-- The BINARYOP macro of lines 1019-1032: four-way dispatch on the
operand kinds, the all-integer pair kept integer unless forceFloat. -/
def jitBinop (fi : Int → Int → Int) (ff : Rat → Rat → Rat) (force : Bool)
    (l r : JValue) : JValue :=
  match l, r with
  | .fv a, .fv b => .fv (ff a b)
  | .fv a, .iv b => .fv (ff a (b : Rat))
  | .iv a, .fv b => .fv (ff (a : Rat) b)
  | .iv a, .iv b => if force then .fv (ff (a : Rat) (b : Rat)) else .iv (fi a b)

/-- A comparison mask ANDed with 1, as an 0-or-1 lane. -/
def maskBit (b : Bool) : JValue := .iv (if b then 1 else 0)

/-- The CMP subcode dispatch of lines 1126-1134, on a linearly ordered
lane type; a subcode outside the enumeration leaves the generated mask
undefined in the source (no default in the switch) and false here. -/
def cmpByCode (code : Nat) (l r : Rat) : Bool :=
  if code = 0 then decide (l = r)
  else if code = 1 then decide (l < r)
  else if code = 2 then decide (l ≤ r)
  else if code = 4 then decide (l ≠ r)
  else if code = 5 then decide (r ≤ l)
  else if code = 6 then decide (r < l)
  else false

def cmpByCodeInt (code : Nat) (l r : Int) : Bool :=
  if code = 0 then decide (l = r)
  else if code = 1 then decide (l < r)
  else if code = 2 then decide (l ≤ r)
  else if code = 4 then decide (l ≠ r)
  else if code = 5 then decide (r ≤ l)
  else if code = 6 then decide (r < l)
  else false

/-- One comparator of the SORT lowering, lines 897-901: slots are
counted from the top of stack (at(i) is stack.at(size - 1 - i), and the
model stack has its head as top), the min written to the first slot and
the max to the second, both computed from the original pair. -/
def sortCompStep (stk : List JValue) (c : Nat × Nat) : Except JitErr (List JValue) := do
  let a := stk.getD c.1 (.iv 0)
  let b := stk.getD c.2 (.iv 0)
  let mn ← valueMin a b
  let mx ← valueMax a b
  .ok ((stk.set c.1 mn).set c.2 mx)

/-- List.foldlM over the comparators of the network. -/
def jitSortOp (n : Nat) (stk : List JValue) : Except JitErr (List JValue) :=
  (buildSortNet n).foldlM sortCompStep stk

/-- Pop for the LOAD1 macro of line 1014 in the code generator; the
validity checks of lines 868-876 run first, so an empty pop would be a
stale compile-time stack and the model raises. -/
def jpop (stk : List JValue) : Except JitErr (JValue × List JValue) :=
  match stk with
  | [] => .error (.rte "insufficient values on stack")
  | x :: rest => .ok (x, rest)

/-- One op of buildOneIter, lines 864-1226: the validity checks of
lines 868-876 and then the op dispatch. -/
def jitStep (env : JitEnv) (st : JitState) (op : ExprOp) : Except JitErr JitState := do
  let stk := st.stack
  let _ ←
    if op.type = .MEM_LOAD ∧ op.imm ≥ env.numInputs then
      .error (.rte "reference to undefined clip")
    else if (op.type = .DUP ∨ op.type = .SWAP) ∧ op.immU ≥ stk.length then
      .error (.rte "insufficient values on stack")
    else if (op.type = .DROP ∨ op.type = .SORT) ∧ op.immU > stk.length then
      .error (.rte "insufficient values on stack")
    else if stk.length < numOperandsJit op.type then
      .error (.rte "insufficient values on stack")
    else
      (.ok () : Except JitErr Unit)
  match op.type with
  | .DUP => .ok { st with stack := stk.getD op.immU (.iv 0) :: stk }
  | .SWAP =>
    let u := op.immU
    .ok { st with stack := (stk.set 0 (stk.getD u (.iv 0))).set u (stk.getD 0 (.iv 0)) }
  | .DROP => .ok { st with stack := stk.drop op.immU }
  | .SORT => do
    let stk1 ← jitSortOp op.immU stk
    .ok { st with stack := stk1 }
  | .MEM_LOAD =>
    let fmt := env.viFmt op.imm
    if fmt.isIntFmt then
      if env.forceFloat then .ok { st with stack := .fv ((env.pixelI op : Int) : Rat) :: stk }
      else .ok { st with stack := .iv (env.pixelI op) :: stk }
    else
      .ok { st with stack := .fv (env.pixelF op) :: stk }
  | .CONSTANTI => .ok { st with stack := .iv (wrap32 op.imm) :: stk }
  | .CONSTANTF =>
    if op.immF = ((qtrunc op.immF : Int) : Rat) then
      .ok { st with stack := .iv (qtrunc op.immF) :: stk }
    else
      .ok { st with stack := .fv op.immF :: stk }
  | .CONST_LOAD =>
    if op.imm = lcN then .ok { st with stack := .iv env.consts0N :: stk }
    else if op.imm = lcY then .ok { st with stack := .iv env.coordY :: stk }
    else if op.imm = lcX then .ok { st with stack := .iv env.coordX :: stk }
    else if op.imm = lcWidth then .ok { st with stack := .iv env.width :: stk }
    else if op.imm = lcHeight then .ok { st with stack := .iv env.height :: stk }
    else
      .ok { st with stack := .fv (env.constsF (op.imm + (1 - lcLAST))) :: stk }
  | .MEM_LOAD_VAR => do
    let (absyV, s1) ← jpop stk
    let (absxV, s2) ← jpop s1
    let fmt := env.viFmt op.imm
    let absx := min (max absxV.ensureInt 0) (env.width - 1)
    let absy := min (max absyV.ensureInt 0) (env.height - 1)
    if fmt.isIntFmt then
      if env.forceFloat then
        .ok { st with stack := .fv ((env.gatherI op absx absy : Int) : Rat) :: s2 }
      else
        .ok { st with stack := .iv (env.gatherI op absx absy) :: s2 }
    else
      .ok { st with stack := .fv (env.gatherF op absx absy) :: s2 }
  | .VAR_LOAD => .ok { st with stack := st.vars.getD op.imm.toNat (.iv 0) :: stk }
  | .VAR_STORE => do
    let (x, s1) ← jpop stk
    .ok { stack := s1, vars := st.vars.set op.imm.toNat x }
  | .ADD => do
    let (r, s1) ← jpop stk
    let (l, s2) ← jpop s1
    .ok { st with stack := jitBinop (fun a b => wrap32 (a + b)) (· + ·) false l r :: s2 }
  | .SUB => do
    let (r, s1) ← jpop stk
    let (l, s2) ← jpop s1
    .ok { st with stack := jitBinop (fun a b => wrap32 (a - b)) (· - ·) false l r :: s2 }
  | .MUL => do
    let (r, s1) ← jpop stk
    let (l, s2) ← jpop s1
    .ok { st with stack := jitBinop (fun a b => wrap32 (a * b)) (· * ·) false l r :: s2 }
  | .DIV => do
    let (r, s1) ← jpop stk
    let (l, s2) ← jpop s1
    .ok { st with stack := jitBinop (fun _ _ => 0) (· / ·) true l r :: s2 }
  | .MOD => do
    let (r, s1) ← jpop stk
    let (l, s2) ← jpop s1
    .ok { st with stack := jitBinop (fun _ _ => 0) qfmod true l r :: s2 }
  | .SQRT => do
    let (x, s1) ← jpop stk
    .ok { st with stack := .fv (env.sqrtHW (max x.ensureFloat 0)) :: s1 }
  | .ABS => do
    let (x, s1) ← jpop stk
    match x with
    | .fv q => .ok { st with stack := .fv |q| :: s1 }
    | .iv z =>
      if env.forceFloat then .ok { st with stack := .fv |(z : Rat)| :: s1 }
      else .ok { st with stack := .iv (wrap32 |z|) :: s1 }
  | .MAX => do
    let (r, s1) ← jpop stk
    let (l, s2) ← jpop s1
    .ok { st with stack := jitBinop max max env.forceFloat l r :: s2 }
  | .MIN => do
    let (r, s1) ← jpop stk
    let (l, s2) ← jpop s1
    .ok { st with stack := jitBinop min min env.forceFloat l r :: s2 }
  | .CLAMP => do
    let (maxv, s1) ← jpop stk
    let (minv, s2) ← jpop s1
    let (x, s3) ← jpop s2
    if x.isFloat || minv.isFloat || maxv.isFloat || env.forceFloat then
      let clamped := max (min x.ensureFloat maxv.ensureFloat) minv.ensureFloat
      .ok { st with stack := .fv clamped :: s3 }
    else
      match x, minv, maxv with
      | .iv xz, .iv mnz, .iv mxz =>
        .ok { st with stack := .iv (max (min xz mxz) mnz) :: s3 }
      | _, _, _ => .error .badVariant
  | .CMP => do
    let (r, s1) ← jpop stk
    let (l, s2) ← jpop s1
    if l.isFloat || r.isFloat then
      .ok { st with stack := maskBit (cmpByCode op.immU l.ensureFloat r.ensureFloat) :: s2 }
    else
      match l, r with
      | .iv lz, .iv rz => .ok { st with stack := maskBit (cmpByCodeInt op.immU lz rz) :: s2 }
      | _, _ => .error .badVariant
  | .AND => do
    let (r, s1) ← jpop stk
    let (l, s2) ← jpop s1
    let lb := decide (0 < l.ensureFloat)
    let rb := decide (0 < r.ensureFloat)
    .ok { st with stack := maskBit (lb && rb) :: s2 }
  | .OR => do
    let (r, s1) ← jpop stk
    let (l, s2) ← jpop s1
    let lb := decide (0 < l.ensureFloat)
    let rb := decide (0 < r.ensureFloat)
    .ok { st with stack := maskBit (lb || rb) :: s2 }
  | .XOR => do
    let (r, s1) ← jpop stk
    let (l, s2) ← jpop s1
    let lb := decide (0 < l.ensureFloat)
    let rb := decide (0 < r.ensureFloat)
    .ok { st with stack := maskBit (xor lb rb) :: s2 }
  | .NOT => do
    let (x, s1) ← jpop stk
    .ok { st with stack := maskBit (decide (x.ensureFloat ≤ 0)) :: s1 }
  | .BITAND => do
    let (r, s1) ← jpop stk
    let (l, s2) ← jpop s1
    .ok { st with stack := .iv (band32 l.ensureInt r.ensureInt) :: s2 }
  | .BITOR => do
    let (r, s1) ← jpop stk
    let (l, s2) ← jpop s1
    .ok { st with stack := .iv (bor32 l.ensureInt r.ensureInt) :: s2 }
  | .BITXOR => do
    let (r, s1) ← jpop stk
    let (l, s2) ← jpop s1
    .ok { st with stack := .iv (bxor32 l.ensureInt r.ensureInt) :: s2 }
  | .BITNOT => do
    let (x, s1) ← jpop stk
    .ok { st with stack := .iv (bnot32 x.ensureInt) :: s1 }
  | .TRUNC => do
    let (x, s1) ← jpop stk
    .ok { st with stack := .fv ((qtrunc x.ensureFloat : Int) : Rat) :: s1 }
  | .ROUND => do
    let (x, s1) ← jpop stk
    .ok { st with stack := .fv ((rne x.ensureFloat : Int) : Rat) :: s1 }
  | .FLOOR => do
    let (x, s1) ← jpop stk
    .ok { st with stack := .fv ((Int.floor x.ensureFloat : Int) : Rat) :: s1 }
  | .EXP => do
    let (x, s1) ← jpop stk
    .ok { st with stack := .fv (env.polyExp x.ensureFloat) :: s1 }
  | .LOG => do
    let (x, s1) ← jpop stk
    .ok { st with stack := .fv (env.polyLog x.ensureFloat) :: s1 }
  | .POW => do
    let (r, s1) ← jpop stk
    let (l, s2) ← jpop s1
    match r with
    | .iv rz => .ok { st with stack := .fv (env.powIntExp l.ensureFloat rz) :: s2 }
    | .fv rq => .ok { st with stack := .fv (env.polyExp (env.polyLog l.ensureFloat * rq)) :: s2 }
  | .SIN => do
    let (x, s1) ← jpop stk
    .ok { st with stack := .fv (env.polySin x.ensureFloat) :: s1 }
  | .COS => do
    let (x, s1) ← jpop stk
    .ok { st with stack := .fv (env.polyCos x.ensureFloat) :: s1 }
  | .TERNARY => do
    let (f, s1) ← jpop stk
    let (t, s2) ← jpop s1
    let (c, s3) ← jpop s2
    let cb : Bool :=
      match c with
      | .fv q => decide (0 < q)
      | .iv z => decide (0 < z)
    if t.isFloat || f.isFloat then
      .ok { st with stack := .fv (if cb then t.ensureFloat else f.ensureFloat) :: s3 }
    else
      match t, f with
      | .iv tz, .iv fz => .ok { st with stack := .iv (if cb then tz else fz) :: s3 }
      | _, _ => .error .badVariant
  | .ARGMIN => .ok st
  | .ARGMAX => .ok st
  | .ARGSORT => .ok st

/-- The op loop of buildOneIter. -/
def jitGo (env : JitEnv) : List ExprOp → JitState → Except JitErr JitState
  | [], st => .ok st
  | op :: rest, st => do
    let st1 ← jitStep env st op
    jitGo env rest st1

/-- buildOneIter up to the store: run the ops from an empty compile-time
stack with the variables initialised to integer zero lanes (line
1364-1365), then the end conditions of lines 1229-1232; the result is
the lane value that reaches the store. -/
def jitRunOps (env : JitEnv) (numVars : Nat) (ops : List ExprOp) : Except JitErr JValue := do
  let st ← jitGo env ops { stack := [], vars := List.replicate numVars (.iv 0) }
  match st.stack with
  | [] => .error (.rte "empty expression")
  | [x] => .ok x
  | _ => .error (.rte "unconsumed values on stack")

/-- The store conversion for a float32 output plane, line 1259: the
stored lane is ensureFloat of the result. -/
def jitStoreF32 (res : JValue) : Rat := res.ensureFloat

/-- The store conversion for an integer output plane, lines 1238-1247:
floats are clamped to the sample range and rounded to nearest even,
integers clamped unless the plane is 32-bit. -/
def jitStoreInt (bits : Nat) (res : JValue) : Int :=
  let maxval : Int := 2 ^ bits - 1
  match res with
  | .fv q => rne (min (max q 0) ((maxval : Rat)))
  | .iv z => if bits < 32 then min (max z 0) maxval else z

/-!
The token decoder, decodeToken of the source, lines 231-390.  The
decoder tries, in this order: the literal table; the clip-name regex;
the name-with-at or name-with-bang variable forms; the counted stack
ops dupN swapN dropN sortN; in extended mode argminN argmaxN argsortN;
the frame-property regex; the relative-pixel regex; the absolute-pixel
regex; and finally the numeric-literal fallback.  The four regexes are
implemented directly over the character list; the C library parses
stoi, stoll (base auto-detect 0) and stof are modelled below, a parse
that throws appearing as none (std::stoi and std::stoll throw both on
no digits and on overflow, and the source catches every exception the
same way).
-/

def isLowerLetter (c : Char) : Bool := 'a' ≤ c && c ≤ 'z'

def isOctDigit (c : Char) : Bool := '0' ≤ c && c ≤ '7'

def isHexDigitC (c : Char) : Bool :=
  ('0' ≤ c && c ≤ '9') || ('a' ≤ c && c ≤ 'f') || ('A' ≤ c && c ≤ 'F')

def decDigitsVal : List Char → Nat → Nat
  | [], acc => acc
  | c :: cs, acc => decDigitsVal cs (acc * 10 + (c.toNat - '0'.toNat))

def octDigitsVal : List Char → Nat → Nat
  | [], acc => acc
  | c :: cs, acc => octDigitsVal cs (acc * 8 + (c.toNat - '0'.toNat))

def hexDigitVal (c : Char) : Nat :=
  if '0' ≤ c && c ≤ '9' then c.toNat - '0'.toNat
  else if 'a' ≤ c && c ≤ 'f' then c.toNat - 'a'.toNat + 10
  else c.toNat - 'A'.toNat + 10

def hexDigitsVal : List Char → Nat → Nat
  | [], acc => acc
  | c :: cs, acc => hexDigitsVal cs (acc * 16 + hexDigitVal c)

/-- An optional leading sign: the sign as an integer, the characters it
used, and the rest. -/
def splitSign (cs : List Char) : Int × Nat × List Char :=
  match cs with
  | '-' :: r => (-1, 1, r)
  | '+' :: r => (1, 1, r)
  | r => (1, 0, r)

/-- std::stoi: optional sign then decimal digits, the value and the
number of characters consumed; none when the parse throws (no digits,
or a value outside the int range). -/
def stoiModel (cs : List Char) : Option (Int × Nat) :=
  let (sgn, signLen, rest) := splitSign cs
  let digs := rest.takeWhile Char.isDigit
  if digs.isEmpty then none
  else
    let v : Int := sgn * (decDigitsVal digs 0 : Int)
    if v < -(2 ^ 31) ∨ 2 ^ 31 - 1 < v then none
    else some (v, signLen + digs.length)

/-- std::stoll with base auto-detect 0: after the optional sign, 0x or
0X introduces hex (falling back to the bare 0 when no hex digit
follows), a bare leading 0 introduces octal, anything else is decimal;
none when the parse throws (no digits, or a value outside the long
long range). -/
def stollModel (cs : List Char) : Option (Int × Nat) :=
  let (sgn, signLen, rest) := splitSign cs
  let fin : Int → Nat → Option (Int × Nat) := fun v n =>
    if v < -(2 ^ 63) ∨ 2 ^ 63 - 1 < v then none else some (v, n)
  match rest with
  | '0' :: x :: r2 =>
    if x = 'x' ∨ x = 'X' then
      let h := r2.takeWhile isHexDigitC
      if h.isEmpty then fin 0 (signLen + 1)
      else fin (sgn * (hexDigitsVal h 0 : Int)) (signLen + 2 + h.length)
    else
      let o := (x :: r2).takeWhile isOctDigit
      fin (sgn * (octDigitsVal o 0 : Int)) (signLen + 1 + o.length)
  | ['0'] => fin 0 (signLen + 1)
  | r =>
    let d := r.takeWhile Char.isDigit
    if d.isEmpty then none
    else fin (sgn * (decDigitsVal d 0 : Int)) (signLen + d.length)

/-- std::stof on the decimal forms: sign, digits with an optional
fractional part (at least one digit overall), and an optional exponent
that only counts when it has a digit.  The value is kept exact; the
hex-float, infinity and nan spellings of the C library, and its
overflow throw, are outside what any theorem below exercises. -/
def stofModel (cs : List Char) : Option (Rat × Nat) :=
  let (sgn, signLen, rest) := splitSign cs
  let ip := rest.takeWhile Char.isDigit
  let r1 := rest.drop ip.length
  let (fp, dotLen) :=
    match r1 with
    | '.' :: r => (r.takeWhile Char.isDigit, 1)
    | _ => ([], 0)
  if ip.isEmpty ∧ fp.isEmpty then none
  else
    let r2 := r1.drop (dotLen + fp.length)
    let mant : Rat := (decDigitsVal ip 0 : Rat) + (decDigitsVal fp 0 : Rat) / (10 ^ fp.length)
    let mantLen := signLen + ip.length + dotLen + fp.length
    let (exv, exLen) :=
      match r2 with
      | e :: r3 =>
        if e = 'e' ∨ e = 'E' then
          let (esgn, esignLen, r4) := splitSign r3
          let ed := r4.takeWhile Char.isDigit
          if ed.isEmpty then ((0 : Int), 0)
          else (esgn * (decDigitsVal ed 0 : Int), 1 + esignLen + ed.length)
        else ((0 : Int), 0)
      | [] => ((0 : Int), 0)
    some ((sgn : Rat) * mant * (10 : Rat) ^ exv, mantLen + exLen)

/-- The numeric-literal fallback, lines 363-389: the integer parse
result and the float parse result enter as parameters (none for a parse
that threw, leaving pos = 0 and the value at its initialiser). -/
def decodeNumeric (intRes : Option (Int × Nat)) (fltRes : Option (Rat × Nat))
    (len : Nat) (token : String) : Except String ExprOp :=
  let pos := (intRes.map Prod.snd).getD 0
  let l := (intRes.map Prod.fst).getD 0
  if pos = len then
    if -(2 ^ 31) ≤ l ∧ l < 2 ^ 31 then .ok { type := .CONSTANTI, imm := l }
    else if 0 ≤ l ∧ l < 2 ^ 32 then .ok { type := .CONSTANTI, imm := l }
    else .ok { type := .CONSTANTF, immF := (l : Rat) }
  else
    let posf := (fltRes.map Prod.snd).getD 0
    let f := (fltRes.map Prod.fst).getD 0
    if posf = len then .ok { type := .CONSTANTF, immF := f }
    else if 0 < posf then
      .error ("failed to convert " ++ token ++ " to float, not the whole token could be converted")
    else
      .error ("failed to convert " ++ token ++ " to float")

/-- The literal table of lines 233-277. -/
def simpleTable (token : String) : Option ExprOp :=
  match token with
  | "+" => some { type := .ADD }
  | "-" => some { type := .SUB }
  | "*" => some { type := .MUL }
  | "/" => some { type := .DIV }
  | "%" => some { type := .MOD }
  | "sqrt" => some { type := .SQRT }
  | "abs" => some { type := .ABS }
  | "max" => some { type := .MAX }
  | "min" => some { type := .MIN }
  | "clip" => some { type := .CLAMP }
  | "clamp" => some { type := .CLAMP }
  | "<" => some { type := .CMP, imm := cmpLT }
  | ">" => some { type := .CMP, imm := cmpNLE }
  | "=" => some { type := .CMP, imm := cmpEQ }
  | ">=" => some { type := .CMP, imm := cmpNLT }
  | "<=" => some { type := .CMP, imm := cmpLE }
  | "trunc" => some { type := .TRUNC }
  | "round" => some { type := .ROUND }
  | "floor" => some { type := .FLOOR }
  | "and" => some { type := .AND }
  | "or" => some { type := .OR }
  | "xor" => some { type := .XOR }
  | "not" => some { type := .NOT }
  | "bitand" => some { type := .BITAND }
  | "bitor" => some { type := .BITOR }
  | "bitxor" => some { type := .BITXOR }
  | "bitnot" => some { type := .BITNOT }
  | "?" => some { type := .TERNARY }
  | "exp" => some { type := .EXP }
  | "log" => some { type := .LOG }
  | "pow" => some { type := .POW }
  | "**" => some { type := .POW }
  | "sin" => some { type := .SIN }
  | "cos" => some { type := .COS }
  | "dup" => some { type := .DUP, imm := 0 }
  | "swap" => some { type := .SWAP, imm := 1 }
  | "drop" => some { type := .DROP, imm := 1 }
  | "pi" => some { type := .CONSTANTF, immF := 13176795 / 4194304 }
  | "N" => some { type := .CONST_LOAD, imm := lcN }
  | "X" => some { type := .CONST_LOAD, imm := lcX }
  | "Y" => some { type := .CONST_LOAD, imm := lcY }
  | "width" => some { type := .CONST_LOAD, imm := lcWidth }
  | "height" => some { type := .CONST_LOAD, imm := lcHeight }
  | _ => none

/-- The clip-name regex of line 279: a single lowercase letter, or src
followed by one or more digits, the whole token. -/
def clipNameMatch : List Char → Bool
  | [c] => isLowerLetter c
  | 's' :: 'r' :: 'c' :: rest => !rest.isEmpty && rest.all Char.isDigit
  | _ => false

/-- extractClipId of lines 285-295: a single letter counts from x (with
a to w continuing at 3), a srcN name goes through stoi, whose throw
becomes the invalid-clip-name error. -/
def extractClipId (cs : List Char) : Except String Int :=
  if cs.length = 1 then
    let c := cs.headD 'a'
    .ok (if 'x' ≤ c then (c.toNat : Int) - ('x'.toNat : Int)
         else (c.toNat : Int) - ('a'.toNat : Int) + 3)
  else
    match stoiModel (cs.drop 3) with
    | some (v, _) => .ok v
    | none => .error "invalid clip name"

/-- The alternation (single letter | src digits) of the pixel and
property regexes: the candidate clip names with what follows each, in
the order the regex engine tries them. -/
def clipSplits (cs : List Char) : List (List Char × List Char) :=
  (match cs with
   | c :: rest => if isLowerLetter c then [([c], rest)] else []
   | [] => []) ++
  (match cs with
   | 's' :: 'r' :: 'c' :: rest =>
     let ds := rest.takeWhile Char.isDigit
     if ds.isEmpty then [] else [('s' :: 'r' :: 'c' :: ds, rest.drop ds.length)]
   | _ => [])

/-- The frame-property regex of line 282: a clip name, a dot, then a
property name free of square brackets (possibly empty). -/
def framePropSplit (cs : List Char) : Option (List Char × List Char) :=
  (clipSplits cs).findSome? (fun p =>
    match p.2 with
    | '.' :: nm => if nm.all (fun c => c ≠ '[' && c ≠ ']') then some (p.1, nm) else none
    | _ => none)

/-- A -?[0-9]+ group: the value and what follows. -/
def signedDigits (cs : List Char) : Option (Int × List Char) :=
  match cs with
  | '-' :: r =>
    let ds := r.takeWhile Char.isDigit
    if ds.isEmpty then none else some (-(decDigitsVal ds 0 : Int), r.drop ds.length)
  | r =>
    let ds := r.takeWhile Char.isDigit
    if ds.isEmpty then none else some ((decDigitsVal ds 0 : Int), r.drop ds.length)

/-- The relative-pixel regex of line 280: clip, open bracket, two signed
integers separated by a comma, close bracket, optionally a colon with c
or m. -/
def relpixelParse (cs : List Char) : Option (List Char × Int × Int × Option Char) :=
  (clipSplits cs).findSome? (fun p =>
    match p.2 with
    | '[' :: r1 =>
      match signedDigits r1 with
      | some (sx, r2) =>
        match r2 with
        | ',' :: r3 =>
          match signedDigits r3 with
          | some (sy, r4) =>
            match r4 with
            | [']'] => some (p.1, sx, sy, none)
            | [']', ':', c] => if c = 'c' ∨ c = 'm' then some (p.1, sx, sy, some c) else none
            | _ => none
          | none => none
        | _ => none
      | none => none
    | _ => none)

/-- The absolute-pixel regex of line 281: a clip name followed by an
empty bracket pair. -/
def abspixelMatch (cs : List Char) : Option (List Char) :=
  (clipSplits cs).findSome? (fun p => if p.2 = ['[', ']'] then some p.1 else none)

/-- decodeToken, lines 231-390. -/
def decodeToken (token : String) (extended : Bool) : Except String ExprOp :=
  let cs := token.toList
  match simpleTable token with
  | some op => .ok op
  | none =>
    if clipNameMatch cs then do
      let id ← extractClipId cs
      .ok { type := .MEM_LOAD, imm := id }
    else if 2 ≤ cs.length ∧ (cs.getLast? = some '@' ∨ cs.getLast? = some '!') then
      .ok { type := if cs.getLast? = some '@' then .VAR_LOAD else .VAR_STORE,
            imm := -1, name := String.mk cs.dropLast }
    else if List.isPrefixOf ['d', 'u', 'p'] cs ∨ List.isPrefixOf ['s', 'w', 'a', 'p'] cs ∨
            List.isPrefixOf ['d', 'r', 'o', 'p'] cs ∨ List.isPrefixOf ['s', 'o', 'r', 't'] cs then
      let pre : Nat := if cs.getD 1 ' ' = 'u' then 3 else 4
      let res := stoiModel (cs.drop pre)
      let idx : Int := (res.map Prod.fst).getD (-1)
      let count : Nat := (res.map Prod.snd).getD 0
      if idx < 0 ∨ pre + count ≠ cs.length then .error ("illegal token: " ++ token)
      else if cs.getD 1 ' ' = 'u' then .ok { type := .DUP, imm := idx }
      else if cs.getD 1 ' ' = 'w' then .ok { type := .SWAP, imm := idx }
      else if cs.getD 1 ' ' = 'r' then .ok { type := .DROP, imm := idx }
      else .ok { type := .SORT, imm := idx }
    else if extended ∧ (List.isPrefixOf ['a', 'r', 'g', 'm', 'i', 'n'] cs ∨
            List.isPrefixOf ['a', 'r', 'g', 'm', 'a', 'x'] cs ∨
            List.isPrefixOf ['a', 'r', 'g', 's', 'o', 'r', 't'] cs) then
      let pre : Nat := if cs.getD 3 ' ' = 's' then 7 else 6
      let res := stoiModel (cs.drop pre)
      let idx : Int := (res.map Prod.fst).getD (-1)
      let count : Nat := (res.map Prod.snd).getD 0
      if idx < 0 ∨ pre + count ≠ cs.length then .error ("illegal token: " ++ token)
      else if cs.getD 3 ' ' = 's' then .ok { type := .ARGSORT, imm := idx }
      else if cs.getD 4 ' ' = 'i' then .ok { type := .ARGMIN, imm := idx }
      else .ok { type := .ARGMAX, imm := idx }
    else
      match framePropSplit cs with
      | some (clip, nm) => do
        let id ← extractClipId clip
        .ok { type := .CONST_LOAD, imm := lcLAST + id, name := String.mk nm }
      | none =>
        match relpixelParse cs with
        | some (clip, sx, sy, flag) => do
          let id ← extractClipId clip
          let bc : BoundaryCondition :=
            match flag with
            | none => .Unspecified
            | some c => if c = 'm' then .Mirrored else .Clamped
          .ok { type := .MEM_LOAD, imm := id, x := sx, y := sy, bc := bc }
        | none =>
          match abspixelMatch cs with
          | some clip => do
            let id ← extractClipId clip
            .ok { type := .MEM_LOAD_VAR, imm := id }
          | none => decodeNumeric (stollModel cs) (stofModel cs) cs.length token

/-!
Frame-property reads of the three filters.  A property slot of the host
map is one of: missing, an integer, a float, a byte string (the host
keeps it null-terminated, so reading its first byte of an empty string
gives 0), or a value of one of the remaining host types (node, frame,
function).  The host propGetInt family returns the error code peUnset
for a missing key and peType for a key of another type (VapourSynth
VSPropGetError); each filter then runs the same int, float, data
cascade, differing only in the substitute for a failed read: Expr
(lines 1444-1457) substitutes NaN, Select (lines 1884-1897) and
PropExpr (lines 2071-2084) substitute 0.0.
-/

inductive PropData where
  | missing
  | pInt (v : Int)
  | pFloat (v : Rat)
  | pData (bytes : List Int)
  | pOther
  deriving DecidableEq, Repr

def peUnset : Nat := 1
def peType : Nat := 2

/-- propGetInt at index 0: the value and the error code. -/
def vsGetInt (p : PropData) : Int × Nat :=
  match p with
  | .pInt v => (v, 0)
  | .missing => (0, peUnset)
  | _ => (0, peType)

def vsGetFloat (p : PropData) : Rat × Nat :=
  match p with
  | .pFloat v => (v, 0)
  | .missing => (0, peUnset)
  | _ => (0, peType)

/-- propGetData: the pointer (none models null) and the error code. -/
def vsGetData (p : PropData) : Option (List Int) × Nat :=
  match p with
  | .pData bs => (some bs, 0)
  | .missing => (none, peUnset)
  | _ => (none, peType)

/-- A float that may be the NaN the Expr path substitutes. -/
inductive FVal where
  | nanv
  | val (q : Rat)
  deriving DecidableEq, Repr

/-- The per-property read of exprGetFrame, lines 1444-1457: try int,
on peType try float, on peType try data and keep d[0] when the pointer
is not null; any remaining error substitutes NaN (the int-to-float and
byte-to-float widenings are exact in the model). -/
def exprPropGet (p : PropData) : FVal :=
  let r1 := vsGetInt p
  let v1 : Rat := (r1.1 : Rat)
  let s2 := if r1.2 = peType then ((vsGetFloat p).1, (vsGetFloat p).2) else (v1, r1.2)
  let s3 :=
    if s2.2 = peType then
      match vsGetData p with
      | (some bs, e) => ((bs.headD 0 : Rat), e)
      | (none, e) => (s2.1, e)
    else s2
  if s3.2 ≠ 0 then .nanv else .val s3.1

/-- The propGet closure of selectGetFrame, lines 1884-1897: the same
cascade, a failed read substituting 0. -/
def selectPropGet (p : PropData) : Rat :=
  let r1 := vsGetInt p
  let v1 : Rat := (r1.1 : Rat)
  let s2 := if r1.2 = peType then ((vsGetFloat p).1, (vsGetFloat p).2) else (v1, r1.2)
  let s3 :=
    if s2.2 = peType then
      match vsGetData p with
      | (some bs, e) => ((bs.headD 0 : Rat), e)
      | (none, e) => (s2.1, e)
    else s2
  if s3.2 ≠ 0 then 0 else s3.1

/-- The propGet closure of propExprGetFrame, lines 2071-2084, the same
text as the Select one. -/
def propExprPropGet (p : PropData) : Rat :=
  let r1 := vsGetInt p
  let v1 : Rat := (r1.1 : Rat)
  let s2 := if r1.2 = peType then ((vsGetFloat p).1, (vsGetFloat p).2) else (v1, r1.2)
  let s3 :=
    if s2.2 = peType then
      match vsGetData p with
      | (some bs, e) => ((bs.headD 0 : Rat), e)
      | (none, e) => (s2.1, e)
    else s2
  if s3.2 ≠ 0 then 0 else s3.1

/-!
The per-key frame work of propExprGetFrame, lines 2094-2122.  A
dictionary key holds a list of op sequences (one per array element; an
empty expression string contributed an empty sequence, since only
non-empty strings are tokenized, lines 2190-2199).  At frame n the
sequence at index n mod length is interpreted (a throw inside interpret
is caught and yields 0, lines 2099-2105); the property is deleted, and
when the selected sequence is non-empty the value is appended as an
integer when it equals its int64 truncation (exact in the model) and as
a float otherwise.
-/

inductive PropWrite where
  | writeInt (v : Int)
  | writeFloat (v : Rat)
  | noWrite
  deriving DecidableEq, Repr

structure KeyFrameAction where
  deletedFirst : Bool
  write : PropWrite
  deriving DecidableEq, Repr

/-- The caught interpretation of lines 2099-2105. -/
def propExprEval (env : InterpEnv) (ops : List ExprOp) : Rat :=
  match interpRun env ops with
  | .ok x => x
  | .error _ => 0

/-- What one dictionary key does to the output frame at frame n, lines
2109-2121.  The index n mod length is taken with getD; the source
computes n % opss.size() with a non-empty array (a key the host map
returns always carries at least one element). -/
def propExprKeyUpdate (env : InterpEnv) (opss : List (List ExprOp)) (n : Nat) :
    KeyFrameAction :=
  let ops := opss.getD (n % opss.length) []
  let v := propExprEval env ops
  { deletedFirst := true,
    write :=
      if 0 < ops.length then
        if v = ((qtrunc v : Int) : Rat) then .writeInt (qtrunc v) else .writeFloat v
      else .noWrite }

/-!
Operator== on ExprOp, lines 178-181, against the raw stored fields: the
union member compared is the unsigned 32-bit pattern, and the bc field
does not take part.  ExprOpRaw mirrors the in-memory struct with the
immediate as its raw pattern.
-/

structure ExprOpRaw where
  type : ExprOpType
  immU : Nat
  name : String
  x : Int
  y : Int
  bc : BoundaryCondition
  deriving DecidableEq, Repr

/-- The equality of lines 178-181: type, imm.u, name, x, y. -/
def exprOpRawEq (lhs rhs : ExprOpRaw) : Bool :=
  decide (lhs.type = rhs.type) && decide (lhs.immU = rhs.immU) &&
    decide (lhs.name = rhs.name) && decide (lhs.x = rhs.x) && decide (lhs.y = rhs.y)

/-!
Concrete environments for the evaluations in the theorems: one input
clip of 8-bit integer samples whose pixels all read 3, a 4 by 1 plane,
frame 0, option mask 0 (so the JIT is in force_float mode), and inert
oracles everywhere else.
-/

def exInterpEnv : InterpEnv where
  frameN := 0
  width := 4
  height := 1
  coordY := 0
  coordX := 0
  pixelGet := fun _ _ _ => .ok 3
  propGet := fun _ _ => .ok 0
  libmSqrt := fun _ => 0
  libmExp := fun _ => 0
  libmLog := fun _ => 0
  libmSin := fun _ => 0
  libmCos := fun _ => 0
  libmPow := fun _ _ => 0

def exJitEnv : JitEnv where
  numInputs := 1
  optMask := 0
  viFmt := fun _ => { isIntFmt := true, bits := 8 }
  pixelI := fun _ => 3
  pixelF := fun _ => 3
  gatherI := fun _ _ _ => 0
  gatherF := fun _ _ _ => 0
  consts0N := 0
  coordX := 0
  coordY := 0
  width := 4
  height := 1
  constsF := fun _ => 0
  polyExp := fun _ => 0
  polyLog := fun _ => 0
  polySin := fun _ => 0
  polyCos := fun _ => 0
  sqrtHW := fun _ => 0
  powIntExp := fun _ _ => 0

/-- The op sequence of the expression 0.5 1 bitand. -/
def progBitand : List ExprOp :=
  [{ type := .CONSTANTF, immF := 1/2 }, { type := .CONSTANTI, imm := 1 }, { type := .BITAND }]

/-- An op sequence with a MEM_LOAD_VAR whose clip immediate 1 is not
below numInputs = 1 (the expression 0 0 y[] over a single clip). -/
def progBadLoadVar : List ExprOp :=
  [{ type := .CONSTANTI, imm := 0 }, { type := .CONSTANTI, imm := 0 },
   { type := .MEM_LOAD_VAR, imm := 1 }]

/-- A MEM_LOAD whose clip immediate 1 is not below numInputs = 1 (the
expression y over a single clip). -/
def progBadLoad : List ExprOp :=
  [{ type := .MEM_LOAD, imm := 1 }]

/-- The op sequence of the expression x 2 sort2 + : under force_float the
pixel load is a float lane and the constant 2 an integer lane, so the
sort comparator meets a mixed pair. -/
def progMixedSort : List ExprOp :=
  [{ type := .MEM_LOAD, imm := 0 }, { type := .CONSTANTI, imm := 2 },
   { type := .SORT, imm := 2 }, { type := .ADD }]

/-! Shared evaluation lemmas: literal rounding values and small network
evaluations, proved once and reused below. -/

theorem rhaz_half : rhaz (2⁻¹ : Rat) = 1 := by norm_num [rhaz]

theorem rhaz_one : rhaz (1 : Rat) = 1 := by norm_num [rhaz]

theorem rne_half : rne (2⁻¹ : Rat) = 0 := by norm_num [rne]

theorem qtrunc_half : qtrunc (2⁻¹ : Rat) = 0 := by norm_num [qtrunc]

theorem half_ne_zero_q : ((2⁻¹ : Rat) = 0) = False := by norm_num

theorem buildSortNet_two : buildSortNet 2 = [(0, 1)] := by
  simp [buildSortNet, ctLoop, sortNetOuter, sortNetInner, sortNetRow,
        List.range_succ, List.filterMap_cons]

/-! The schedule equality behind C4: the reference generator and the
schedule written from the spec agree function by function. -/

theorem sortNetRow_eq_spec : sortNetRow = specNetRow := rfl

theorem ctLoop_eq_max (n t : Nat) : ctLoop n t = max t (Nat.clog 2 n) := by
  rw [ctLoop]
  split
  · rename_i h
    have hle : Nat.clog 2 n ≤ t := by
      rw [← Nat.le_pow_iff_clog_le (by omega)]
      simpa [Nat.shiftLeft_eq] using h
    omega
  · rename_i h
    have hlt : t < Nat.clog 2 n := by
      by_contra hc
      push_neg at hc
      have h2 : n ≤ 2 ^ t := (Nat.le_pow_iff_clog_le (by omega)).mpr hc
      simp [Nat.shiftLeft_eq] at h
      omega
    have ih := ctLoop_eq_max n (t + 1)
    omega
termination_by n - (1 <<< t)
decreasing_by
  simp only [Nat.shiftLeft_eq, Nat.one_mul] at *
  have h2 : 2 ^ t < 2 ^ (t + 1) := Nat.pow_lt_pow_right (by omega) (by omega)
  omega

theorem sortNetInner_eq_spec (n p q r d : Nat) :
    sortNetInner n p q r d = specNetInner n p q r d := by
  rw [sortNetInner, specNetInner]
  split
  · rfl
  · rw [sortNetRow_eq_spec, sortNetInner_eq_spec n p (q / 2) p (q - p)]
termination_by (q, d)
decreasing_by
  rcases Nat.eq_zero_or_pos q with h | h
  · subst h
    exact Prod.Lex.right 0 (by omega)
  · exact Prod.Lex.left _ _ (Nat.div_lt_self h (by omega))

theorem sortNetOuter_eq_spec (n t p : Nat) :
    sortNetOuter n t p = specNetOuter n t p := by
  rw [sortNetOuter, specNetOuter]
  split
  · rfl
  · rw [sortNetInner_eq_spec, sortNetOuter_eq_spec n t (p / 2),
        Nat.shiftLeft_eq, Nat.one_mul]
termination_by p
decreasing_by exact Nat.div_lt_self (by omega) (by omega)

theorem buildSortNet_eq_spec (n : Nat) : buildSortNet n = sortNetSpec n := by
  unfold buildSortNet sortNetSpec
  rw [ctLoop_eq_max, Nat.max_eq_right (Nat.zero_le _), sortNetOuter_eq_spec,
      Nat.shiftLeft_eq, Nat.one_mul]

theorem mem_sortNetRow {n d r p : Nat} {c : Nat × Nat} (h : c ∈ sortNetRow n d r p) :
    c.2 = c.1 + d := by
  unfold sortNetRow at h
  simp only [List.mem_filterMap, List.mem_range] at h
  obtain ⟨i, _, hi⟩ := h
  split at hi
  · cases hi
    rfl
  · cases hi

theorem mem_sortNetInner {n p q r d : Nat} {c : Nat × Nat}
    (h : c ∈ sortNetInner n p q r d) : c.1 < c.2 := by
  rw [sortNetInner] at h
  split at h
  · simp at h
  · rename_i hd
    rcases List.mem_append.mp h with h1 | h2
    · have := mem_sortNetRow h1
      omega
    · exact mem_sortNetInner h2
termination_by (q, d)
decreasing_by
  rcases Nat.eq_zero_or_pos q with h | h
  · subst h
    exact Prod.Lex.right 0 (by omega)
  · exact Prod.Lex.left _ _ (Nat.div_lt_self h (by omega))

theorem mem_sortNetOuter {n t p : Nat} {c : Nat × Nat}
    (h : c ∈ sortNetOuter n t p) : c.1 < c.2 := by
  rw [sortNetOuter] at h
  split at h
  · simp at h
  · rcases List.mem_append.mp h with h1 | h2
    · exact mem_sortNetInner h1
    · exact mem_sortNetOuter h2
termination_by p
decreasing_by exact Nat.div_lt_self (by omega) (by omega)

theorem mem_buildSortNet {n : Nat} {c : Nat × Nat} (h : c ∈ buildSortNet n) :
    c.1 < c.2 :=
  mem_sortNetOuter h

theorem sortCompStep_min_max (stk : List JValue) (a b : Nat) (mn mx : JValue)
    (hmn : valueMin (stk.getD a (.iv 0)) (stk.getD b (.iv 0)) = .ok mn)
    (hmx : valueMax (stk.getD a (.iv 0)) (stk.getD b (.iv 0)) = .ok mx) :
    sortCompStep stk (a, b) = .ok ((stk.set a mn).set b mx) := by
  unfold sortCompStep
  simp only [bind, Except.bind]
  rw [hmn, hmx]

/-! Decoding lemmas for the tokens of the C1 expression. -/

theorem stofModel_half : stofModel "0.5".toList = some (1/2, 3) := by
  have h1 : stofModel "0.5".toList =
      some ((1 : Rat) * ((0 : Rat) + (5 : Rat) / 10 ^ 1) * (10 : Rat) ^ (0 : Int), 3) := rfl
  rw [h1]
  norm_num

theorem decode_half : decodeToken "0.5" false = .ok { type := .CONSTANTF, immF := 1/2 } := by
  have h2 : decodeToken "0.5" false =
      decodeNumeric (stollModel "0.5".toList) (stofModel "0.5".toList) 3 "0.5" := rfl
  have h3 : stollModel "0.5".toList = some (0, 1) := rfl
  rw [h2, h3, stofModel_half]
  rfl

theorem decode_one : decodeToken "1" false = .ok { type := .CONSTANTI, imm := 1 } := rfl

theorem decode_bitand : decodeToken "bitand" false = .ok { type := .BITAND } := rfl

/--
C1: for expressions with none of exp, log, sin, cos, pow the spec claims
bit-exact agreement of the scalar interpreter and the force_float JIT at
every pixel.  The code breaks this: the interpreter rounds bitwise-op
operands with std::round (ties away from zero, line 1763) while the JIT
rounds with RoundInt (ties to even, line 514).  On the constant
expression 0.5 1 bitand, whose every intermediate value is exactly
representable, the interpreter computes 1.0 while the JIT computes the
integer lane 0 in force_float mode, so the stored pixel differs from the
interpreted value.
-/
theorem c1_interpreter_jit_bitand_divergence :
    [decodeToken "0.5" false, decodeToken "1" false, decodeToken "bitand" false] =
      progBitand.map Except.ok ∧
    exJitEnv.forceFloat = true ∧
    interpRun exInterpEnv progBitand = .ok 1 ∧
    jitRunOps exJitEnv 0 progBitand = .ok (.iv 0) ∧
    jitStoreF32 (.iv 0) ≠ (1 : Rat) := by
  refine ⟨?_, rfl, ?_, ?_, by norm_num [jitStoreF32, JValue.ensureFloat]⟩
  · rw [decode_half, decode_one, decode_bitand]
    rfl
  · simp [interpRun, interpGo, interpStep, progBitand, exInterpEnv, checkStack, popTop,
          band32, toBits32, ofBits32, wrap32, ExprOp.immU, rhaz_half, rhaz_one,
          bind, Except.bind, pure, Except.pure]
  · simp [jitRunOps, jitGo, jitStep, progBitand, exJitEnv, jpop, numOperandsJit,
          band32, toBits32, ofBits32, wrap32, ExprOp.immU, JValue.ensureInt,
          JitEnv.forceFloat, qtrunc_half, rne_half, half_ne_zero_q,
          bind, Except.bind, pure, Except.pure]

/--
C2: the spec claims a MemLoad or MemLoadVar clip index at or above
numInputs fails compilation with the undefined-clip error.  The check of
line 869 covers MEM_LOAD only; the MEM_LOAD_VAR case (line 1062) indexes
ctx.vi with the unchecked immediate and generates code.  With one input
clip, the sequence 0 0 MemLoadVar(1) compiles without any error while
the analogous MemLoad(1) is rejected.
-/
theorem c2_memloadvar_clip_check_missing :
    exJitEnv.numInputs = 1 ∧
    jitRunOps exJitEnv 0 progBadLoadVar = .ok (.fv 0) ∧
    jitRunOps exJitEnv 0 progBadLoad = .error (.rte "reference to undefined clip") :=
  ⟨rfl, rfl, rfl⟩

/--
C3: the spec claims Sort N (interpreter and JIT lowering) sorts the top
N stack values descending toward the deeper slots and leaves the rest
unchanged.  The interpreter does; but the JIT comparator uses Value::Min
and Value::Max (lines 516-517, 899), whose float branch reads the float
alternative of both operands, so a sort over a mixed int/float
compile-time stack raises std::bad_variant_access (not a runtime_error,
so no handler catches it) instead of sorting.  The expression
x 2 sort2 + under force_float reaches exactly that: the pixel lane is
float, the constant 2 integer.
-/
theorem c3_sort_mixed_lane_types_abort :
    jitRunOps exJitEnv 0 progMixedSort = .error .badVariant ∧
    interpRun exInterpEnv progMixedSort = .ok 5 := by
  constructor
  · simp [jitRunOps, jitGo, jitStep, progMixedSort, exJitEnv, jpop, numOperandsJit,
          ExprOp.immU, JitEnv.forceFloat, jitSortOp, buildSortNet_two, sortCompStep,
          valueMin, valueMax, bind, Except.bind, pure, Except.pure]
  · norm_num [interpRun, interpGo, interpStep, progMixedSort, exInterpEnv, checkStack,
          popTop, ExprOp.immU, wrap32, toBits32, ofBits32, sortAsc, insAsc,
          bind, Except.bind, pure, Except.pure, show Int.toNat 2 = 2 from by simp]

/--
C4: the comparator sequence buildSortNet emits for every count n equals,
pair for pair and in order, the schedule of the deterministic procedure
in the spec (t the ceiling log, the p, q, r, d loops as given); every
emitted pair (a, b) has a < b; and the lowering of one comparator writes
the Value minimum to slot a and the Value maximum to slot b, slots
counted from the top of the stack.
-/
theorem c4_sortnet_schedule_and_lowering :
    (∀ n, buildSortNet n = sortNetSpec n) ∧
    (∀ n c, c ∈ buildSortNet n → c.1 < c.2) ∧
    (∀ stk a b mn mx,
      valueMin (stk.getD a (JValue.iv 0)) (stk.getD b (JValue.iv 0)) = .ok mn →
      valueMax (stk.getD a (JValue.iv 0)) (stk.getD b (JValue.iv 0)) = .ok mx →
      sortCompStep stk (a, b) = .ok ((stk.set a mn).set b mx)) :=
  ⟨buildSortNet_eq_spec, fun _ _ h => mem_buildSortNet h, sortCompStep_min_max⟩

/-- C4 witness: the schedule equality at n = 8 and one comparator on a
concrete integer pair, min to the top slot, max to the deeper slot. -/
theorem c4_sortnet_witness :
    buildSortNet 8 = sortNetSpec 8 ∧
    sortCompStep [JValue.iv 5, JValue.iv 3] (0, 1) =
      .ok (([JValue.iv 5, JValue.iv 3].set 0 (JValue.iv 3)).set 1 (JValue.iv 5)) :=
  ⟨c4_sortnet_schedule_and_lowering.1 8,
   c4_sortnet_schedule_and_lowering.2.2 [JValue.iv 5, JValue.iv 3] 0 1
     (JValue.iv 3) (JValue.iv 5) rfl rfl⟩

/--
C5: a frame-property access whose key is missing, or holds none of an
integer, a float or a byte string, raises no error in any of the three
filters: the Expr path substitutes NaN, the Select and PropExpr paths
substitute 0.0.
-/
theorem c5_missing_property_defaults (p : PropData)
    (h : p = .missing ∨ p = .pOther) :
    exprPropGet p = .nanv ∧ selectPropGet p = 0 ∧ propExprPropGet p = 0 := by
  rcases h with h | h <;> subst h <;> exact ⟨rfl, rfl, rfl⟩

/-- C5 witness: the three defaults at a missing key. -/
theorem c5_missing_property_witness :
    exprPropGet .missing = .nanv ∧ selectPropGet .missing = 0 ∧
      propExprPropGet .missing = 0 :=
  c5_missing_property_defaults .missing (Or.inl rfl)

/--
C6: a PropExpr dictionary key with an expression array of length L
evaluates, at frame n, the sequence at index n mod L; the property is
deleted first, and then, when the selected sequence is non-empty, the
value is written as an integer property when it equals its integer
truncation and as a float property otherwise; an empty selected
expression deletes and writes nothing.
-/
theorem c6_propexpr_key_semantics (env : InterpEnv) (opss : List (List ExprOp))
    (n : Nat) (_hL : 0 < opss.length) :
    (propExprKeyUpdate env opss n).deletedFirst = true ∧
    (opss.getD (n % opss.length) [] = [] →
      (propExprKeyUpdate env opss n).write = .noWrite) ∧
    (opss.getD (n % opss.length) [] ≠ [] →
      propExprEval env (opss.getD (n % opss.length) []) =
        ((qtrunc (propExprEval env (opss.getD (n % opss.length) [])) : Int) : Rat) →
      (propExprKeyUpdate env opss n).write =
        .writeInt (qtrunc (propExprEval env (opss.getD (n % opss.length) [])))) ∧
    (opss.getD (n % opss.length) [] ≠ [] →
      propExprEval env (opss.getD (n % opss.length) []) ≠
        ((qtrunc (propExprEval env (opss.getD (n % opss.length) [])) : Int) : Rat) →
      (propExprKeyUpdate env opss n).write =
        .writeFloat (propExprEval env (opss.getD (n % opss.length) []))) := by
  refine ⟨rfl, ?_, ?_, ?_⟩
  · intro he
    simp only [propExprKeyUpdate]
    rw [he]
    simp
  · intro hne hint
    simp only [propExprKeyUpdate]
    rw [if_pos (List.length_pos.mpr hne), if_pos hint]
  · intro hne hnint
    simp only [propExprKeyUpdate]
    rw [if_pos (List.length_pos.mpr hne), if_neg hnint]

/-- C6 witness: a key holding one empty expression at frame 0 deletes
the property and writes nothing. -/
theorem c6_propexpr_witness :
    (propExprKeyUpdate exInterpEnv [[]] 0).deletedFirst = true ∧
    (propExprKeyUpdate exInterpEnv [[]] 0).write = .noWrite := by
  have h := c6_propexpr_key_semantics exInterpEnv [[]] 0 (by decide)
  exact ⟨h.1, h.2.1 rfl⟩

/--
C7: numeric-literal decoding first attempts the integer parse (stoll,
base auto-detect 0): consuming the whole token with a value fitting i32
gives ConstInt of that i32; fitting only u32 gives ConstInt of the u32
reinterpretation (the same raw low 32 bits); when the integer parse does
not consume the whole token a float parse is attempted, and a float
parse that consumes only part of the token is the fatal invalid-token
error.
-/
theorem c7_numeric_literal_decoding (intRes : Option (Int × Nat))
    (fltRes : Option (Rat × Nat)) (len : Nat) (tok : String) :
    (∀ l, intRes = some (l, len) → -(2 ^ 31) ≤ l → l < 2 ^ 31 →
      decodeNumeric intRes fltRes len tok = .ok { type := .CONSTANTI, imm := l }) ∧
    (∀ l, intRes = some (l, len) → 2 ^ 31 ≤ l → l < 2 ^ 32 →
      decodeNumeric intRes fltRes len tok = .ok { type := .CONSTANTI, imm := l }) ∧
    (∀ q, (intRes.map Prod.snd).getD 0 ≠ len → fltRes = some (q, len) →
      decodeNumeric intRes fltRes len tok = .ok { type := .CONSTANTF, immF := q }) ∧
    (∀ q p, (intRes.map Prod.snd).getD 0 ≠ len → fltRes = some (q, p) → p ≠ len →
      0 < p →
      decodeNumeric intRes fltRes len tok =
        .error ("failed to convert " ++ tok ++
          " to float, not the whole token could be converted")) := by
  refine ⟨?_, ?_, ?_, ?_⟩
  · intro l hres h1 h2
    subst hres
    simp only [decodeNumeric, Option.map_some', Option.getD_some, if_true]
    split_ifs with hA hB
    any_goals rfl
    all_goals omega
  · intro l hres h1 h2
    subst hres
    simp only [decodeNumeric, Option.map_some', Option.getD_some, if_true]
    split_ifs with hA hB
    any_goals rfl
    all_goals omega
  · intro q hpos hres
    subst hres
    simp only [decodeNumeric, Option.map_some', Option.getD_some]
    rw [if_neg hpos]
    simp
  · intro q p hpos hres hp hppos
    subst hres
    simp only [decodeNumeric, Option.map_some', Option.getD_some]
    rw [if_neg hpos, if_neg hp, if_pos hppos]

/-- C7 witness: a full-token integer parse of 7 becomes ConstInt 7, and
a partial float parse is the fatal error. -/
theorem c7_numeric_witness :
    decodeNumeric (some (7, 1)) none 1 "7" = .ok { type := .CONSTANTI, imm := 7 } ∧
    decodeNumeric (some (0, 1)) (some (3/2, 3)) 4 "1.5x" =
      .error "failed to convert 1.5x to float, not the whole token could be converted" :=
  ⟨(c7_numeric_literal_decoding (some (7, 1)) none 1 "7").1 7 rfl (by norm_num)
     (by norm_num),
   (c7_numeric_literal_decoding (some (0, 1)) (some (3/2, 3)) 4 "1.5x").2.2.2 (3/2) 3
     (by norm_num) rfl (by norm_num) (by norm_num)⟩

/--
C8: two Op values compare equal exactly when their kind, raw 32-bit
immediate (the unsigned union member), name, dx and dy all match; the
boundary-condition field takes no part, so two Ops differing only in bc
compare equal.
-/
theorem c8_op_equality_ignores_bc :
    (∀ a b : ExprOpRaw, exprOpRawEq a b = true ↔
      (a.type = b.type ∧ a.immU = b.immU ∧ a.name = b.name ∧ a.x = b.x ∧ a.y = b.y)) ∧
    exprOpRawEq
      { type := .MEM_LOAD, immU := 0, name := "", x := 1, y := 0, bc := .Clamped }
      { type := .MEM_LOAD, immU := 0, name := "", x := 1, y := 0, bc := .Mirrored } = true ∧
    BoundaryCondition.Clamped ≠ BoundaryCondition.Mirrored := by
  refine ⟨fun a b => ?_, rfl, by decide⟩
  simp [exprOpRawEq, Bool.and_eq_true, decide_eq_true_iff, and_assoc]

/--
C9: in code generation a ConstFloat op whose immediate f equals the
float of its integer truncation is pushed as an integer constant (so
constant 2.0 enters the integer lane domain), and only a ConstFloat with
a non-integral immediate pushes a float constant.  The range bound keeps
the model inside the values where the float-to-int conversion of line
984 is well defined in C.
-/
theorem c9_constantf_integral_pushed_as_int (env : JitEnv) (st : JitState) (f : Rat)
    (_hf : |f| < 2 ^ 31) :
    (f = ((qtrunc f : Int) : Rat) →
      jitStep env st { type := .CONSTANTF, immF := f } =
        .ok { st with stack := .iv (qtrunc f) :: st.stack }) ∧
    (f ≠ ((qtrunc f : Int) : Rat) →
      jitStep env st { type := .CONSTANTF, immF := f } =
        .ok { st with stack := .fv f :: st.stack }) := by
  constructor
  · intro h
    unfold jitStep
    dsimp only
    rw [if_pos h]
    simp [numOperandsJit, bind, Except.bind]
  · intro h
    unfold jitStep
    dsimp only
    rw [if_neg h]
    simp [numOperandsJit, bind, Except.bind]

/-- C9 witness: the decoded literal 2.0 is pushed as the integer lane 2,
and the pi immediate as a float lane. -/
theorem c9_constantf_witness :
    jitStep exJitEnv { stack := [], vars := [] } { type := .CONSTANTF, immF := 2 } =
      .ok { stack := [JValue.iv 2], vars := [] } ∧
    jitStep exJitEnv { stack := [], vars := [] }
        { type := .CONSTANTF, immF := 13176795 / 4194304 } =
      .ok { stack := [JValue.fv (13176795 / 4194304)], vars := [] } := by
  have hq2 : qtrunc (2 : Rat) = 2 := by norm_num [qtrunc]
  have h1 := (c9_constantf_integral_pushed_as_int exJitEnv { stack := [], vars := [] } 2
    (by norm_num)).1 (by rw [hq2]; norm_num)
  have hqpi : qtrunc ((13176795 : Rat) / 4194304) = 3 := by norm_num [qtrunc]
  have h2 := (c9_constantf_integral_pushed_as_int exJitEnv { stack := [], vars := [] }
    (13176795 / 4194304) (by rw [abs_of_pos (by norm_num)]; norm_num)).2
    (by rw [hqpi]; norm_num)
  rw [hq2] at h1
  exact ⟨h1, h2⟩

/--
C10: the un-suffixed stack tokens decode with fixed implicit counts:
dup to Dup 0, swap to Swap 1, drop to Drop 1, each exactly equivalent to
its counted form dup0, swap1, drop1.
-/
theorem c10_unsuffixed_stack_tokens :
    decodeToken "dup" false = .ok { type := .DUP, imm := 0 } ∧
    decodeToken "swap" false = .ok { type := .SWAP, imm := 1 } ∧
    decodeToken "drop" false = .ok { type := .DROP, imm := 1 } ∧
    decodeToken "dup" false = decodeToken "dup0" false ∧
    decodeToken "swap" false = decodeToken "swap1" false ∧
    decodeToken "drop" false = decodeToken "drop1" false :=
  ⟨rfl, rfl, rfl, rfl, rfl, rfl⟩

end Akarin
